import Mathlib

/-!
Shallow embedding of the storefront client (React views + axios service layer)
for verification against its specification.

Every handler of the source is modelled as a pure state transition.  A server
round trip appears as an explicit `FetchOutcome` argument: either the uniform
response envelope the server answered with, or the error object the promise was
rejected with.  JavaScript truthiness on nullable strings and numbers is
modelled explicitly wherever the source relies on it (`if (token)`,
`a || b`, `x || 0`).  Alongside the new state, handlers return the list of
API calls they issued, so that claims about which requests a flow performs
are statable.
-/

namespace Storefront

/-- JS truthiness of a nullable string: null/undefined and the empty string are falsy. -/
def truthy : Option String → Bool
  | none => false
  | some s => s != ""

/-- JS `a || b` on a nullable string `a`: null/undefined and the empty string fall through to `b`. -/
def jsOr (a : Option String) (b : String) : String :=
  match a with
  | some s => if s = "" then b else s
  | none => b

/-- JS `a || b` on a nullable number `a`: null/undefined and 0 fall through to `b`. -/
def jsNumOr (a : Option Int) (b : Int) : Int :=
  match a with
  | some v => if v = 0 then b else v
  | none => b

/-- Browser `localStorage` modelled as an association list of key/value pairs. -/
abbrev Store := List (String × String)

/-- localStorage.getItem: null (`none`) when the key is absent. -/
def storeGet (st : Store) (k : String) : Option String :=
  (st.find? (fun p => p.1 == k)).map Prod.snd

/-- localStorage.setItem. -/
def storeSet (st : Store) (k v : String) : Store :=
  (k, v) :: st.filter (fun p => p.1 != k)

/-- localStorage.removeItem. -/
def storeRemove (st : Store) (k : String) : Store :=
  st.filter (fun p => p.1 != k)

/-- The uniform response envelope of the REST API: `{success: boolean, data, message?}`. -/
structure Envelope (α : Type) where
  success : Bool
  data : α
  message : Option String
deriving DecidableEq

/-- The error object a rejected axios promise carries, restricted to the fields
the client reads: `error.response?.status`, `error.response?.data?.message`,
`error.message`.  `none` models an absent level of the optional chain. -/
structure JsError where
  respStatus : Option Nat
  respDataMessage : Option String
  message : Option String
deriving DecidableEq

/-- The error-message selection every catch block performs:
`err.response?.data?.message || err.message || fallback`. -/
def errMessage (e : JsError) (fallback : String) : String :=
  jsOr e.respDataMessage (jsOr e.message fallback)

/-- Result of one awaited API call: the envelope the server answered with, or a
thrown (rejected-promise) error. -/
inductive FetchOutcome (α : Type) where
  | ok (env : Envelope α)
  | thrown (e : JsError)
deriving DecidableEq

/-- The API calls the service layer (api.js) can issue; constructors follow the
exported function names. -/
inductive ApiCall where
  | getCart
  | updateCartItem (productId : String) (quantity : Int)
  | removeFromCart (productId : String)
  | clearCart
  | addToCart (productId : String) (quantity : Int)
  | getProducts (search : Option String) (sort : String)
  | getProductById (id : String)
  | getProfile
  | postLogin (email password : String)
deriving DecidableEq

/-- An outbound request configuration (axios config), restricted to the parts the
request interceptor touches. -/
structure RequestConfig where
  url : String
  headers : Store
deriving DecidableEq

/-- Request interceptor (api.js lines 14-25): read the token from localStorage
under the fixed key and, when truthy (`if (token)`), set the Authorization
header to the Bearer token; otherwise pass the config through unchanged. -/
def requestInterceptor (storage : Store) (config : RequestConfig) : RequestConfig :=
  match storeGet storage "token" with
  | some token =>
      if token != "" then
        { config with headers := storeSet config.headers "Authorization" ("Bearer " ++ token) }
      else config
  | none => config

/-- The browser-global state the response interceptor touches: localStorage,
`window.location.pathname`, and the navigation it may perform by assigning
`window.location.href`. -/
structure Browser where
  storage : Store
  pathname : String
  redirectedTo : Option String
deriving DecidableEq

/-- What an axios interceptor hands back to the awaiting caller. -/
inductive InterceptorResult (α : Type) where
  | resolved (a : α)
  | rejected (e : JsError)
deriving DecidableEq

/-- Response error interceptor (api.js lines 28-43): on a 401 response the token
is removed from localStorage and the browser is sent to /login unless the
current path already is /login; in every case the error is re-rejected. -/
def responseErrorInterceptor (b : Browser) (e : JsError) : Browser × InterceptorResult Unit :=
  if e.respStatus == some 401 then
    let b1 : Browser := { b with storage := storeRemove b.storage "token" }
    let b2 : Browser :=
      if b1.pathname != "/login" then { b1 with redirectedTo := some "/login" } else b1
    (b2, .rejected e)
  else (b, .rejected e)

/-- A product, restricted to the fields the claimed logic reads (display-only
fields such as images, rating or description play no role in any claim). -/
structure Product where
  id : String
  name : String
  price : Int
  stock : Int
deriving DecidableEq

/-- One cart line: `{id, quantity, product}`; the nested product may be missing. -/
structure CartItem where
  id : String
  quantity : Int
  product : Option Product
deriving DecidableEq

/-- The cart payload the server returns: `{items, subtotal, itemCount}`. -/
structure CartData where
  items : List CartItem
  subtotal : Int
  itemCount : Int
deriving DecidableEq

/-- Local state of the cart page (Cart component). -/
structure CartState where
  cart : Option CartData
  loading : Bool
  error : String
  updatingItems : List String
  message : String
deriving DecidableEq

/-- JS `Set.add` on the updating-items set (each id held at most once). -/
def setAdd (s : List String) (x : String) : List String :=
  if x ∈ s then s else x :: s

/-- JS `Set.delete` on the updating-items set. -/
def setDelete (s : List String) (x : String) : List String :=
  s.filter (fun y => y != x)

namespace Cart

/-- fetchCart (Cart page): set loading, clear the error, then either replace the
cart with the envelope payload, or record the failure message; loading is
cleared in the finally block. -/
def fetchCart (s : CartState) (outcome : FetchOutcome CartData) : CartState :=
  let s1 : CartState := { s with loading := true, error := "" }
  let s2 : CartState :=
    match outcome with
    | .ok env =>
        if env.success then { s1 with cart := some env.data }
        else { s1 with error := jsOr env.message "Failed to fetch cart" }
    | .thrown e =>
        { s1 with error := errMessage e "An error occurred while fetching your cart. Please try again." }
  { s2 with loading := false }

/-- The state both item-mutation handlers establish before awaiting the request:
the product id is added to the updating set and the flash message cleared. -/
def beginItemUpdate (s : CartState) (productId : String) : CartState :=
  { s with updatingItems := setAdd s.updatingItems productId, message := "" }

/-- handleUpdateQuantity: refuse quantities below 1; otherwise mark the item
updating, issue the update, refetch the whole cart on success, surface the
failure message otherwise, and always unmark the item in the finally block. -/
def handleUpdateQuantity (s : CartState) (productId : String) (newQuantity : Int)
    (mutRes : FetchOutcome Unit) (refetch : FetchOutcome CartData) :
    CartState × List ApiCall :=
  if newQuantity < 1 then (s, [])
  else
    let s1 := beginItemUpdate s productId
    let r : CartState × List ApiCall :=
      match mutRes with
      | .ok env =>
          if env.success then
            (fetchCart s1 refetch, [ApiCall.updateCartItem productId newQuantity, ApiCall.getCart])
          else
            ({ s1 with message := jsOr env.message "Failed to update item" },
              [ApiCall.updateCartItem productId newQuantity])
      | .thrown e =>
          ({ s1 with message := errMessage e "Failed to update item. Please try again." },
            [ApiCall.updateCartItem productId newQuantity])
    ({ r.1 with updatingItems := setDelete r.1.updatingItems productId }, r.2)

/-- handleRemoveItem: mark the item updating, issue the delete, refetch the
whole cart and flash a confirmation on success, surface the failure message
otherwise, and always unmark the item in the finally block. -/
def handleRemoveItem (s : CartState) (productId : String)
    (mutRes : FetchOutcome Unit) (refetch : FetchOutcome CartData) :
    CartState × List ApiCall :=
  let s1 := beginItemUpdate s productId
  let r : CartState × List ApiCall :=
    match mutRes with
    | .ok env =>
        if env.success then
          ({ fetchCart s1 refetch with message := "Item removed from cart" },
            [ApiCall.removeFromCart productId, ApiCall.getCart])
        else
          ({ s1 with message := jsOr env.message "Failed to remove item" },
            [ApiCall.removeFromCart productId])
    | .thrown e =>
        ({ s1 with message := errMessage e "Failed to remove item. Please try again." },
          [ApiCall.removeFromCart productId])
  ({ r.1 with updatingItems := setDelete r.1.updatingItems productId }, r.2)

/-- handleClearCart: gated by a confirm dialog; on success the whole cart is
refetched and a confirmation flashed; loading is cleared in the finally block. -/
def handleClearCart (s : CartState) (confirmed : Bool)
    (mutRes : FetchOutcome Unit) (refetch : FetchOutcome CartData) :
    CartState × List ApiCall :=
  if !confirmed then (s, [])
  else
    let s1 : CartState := { s with loading := true, message := "" }
    let r : CartState × List ApiCall :=
      match mutRes with
      | .ok env =>
          if env.success then
            ({ fetchCart s1 refetch with message := "Cart cleared successfully" },
              [ApiCall.clearCart, ApiCall.getCart])
          else
            ({ s1 with message := jsOr env.message "Failed to clear cart" }, [ApiCall.clearCart])
      | .thrown e =>
          ({ s1 with message := errMessage e "Failed to clear cart. Please try again." },
            [ApiCall.clearCart])
    ({ r.1 with loading := false }, r.2)

/-- The rendered item list: `cart?.items?.filter(item => item.product) || []`. -/
def cartItems (s : CartState) : List CartItem :=
  match s.cart with
  | some c => c.items.filter (fun i => i.product.isSome)
  | none => []

/-- The displayed subtotal: `cart?.subtotal || 0`, read from the last server response. -/
def subtotal (s : CartState) : Int :=
  jsNumOr (s.cart.map CartData.subtotal) 0

/-- The displayed item count: `cart?.itemCount || 0`, read from the last server response. -/
def itemCount (s : CartState) : Int :=
  jsNumOr (s.cart.map CartData.itemCount) 0

/-- The lookup both quantity handlers start with:
`cart?.items?.find(i => i.product?.id === productId)`. -/
def findItem (s : CartState) (productId : String) : Option CartItem :=
  match s.cart with
  | some c =>
      c.items.find? (fun i =>
        match i.product with
        | some p => p.id == productId
        | none => false)
  | none => none

/-- handleQuantityChange (stepper buttons): the quantity handed to
handleUpdateQuantity, or `none` when the change is refused (item missing, or
the new quantity would leave [1, stock]). -/
def handleQuantityChange (s : CartState) (productId : String) (delta : Int) : Option Int :=
  match findItem s productId with
  | none => none
  | some item =>
      match item.product with
      | none => none
      | some p =>
          let newQuantity := item.quantity + delta
          if 1 ≤ newQuantity ∧ newQuantity ≤ p.stock then some newQuantity else none

/-- handleQuantityInputChange (typed value): the quantity handed to
handleUpdateQuantity, computed as `Math.max(1, Math.min(parseInt(value) || 1, stock))`.
`parsed` is the result of `parseInt(value)` with `none` modelling NaN. -/
def handleQuantityInputChange (s : CartState) (productId : String) (parsed : Option Int) : Option Int :=
  match findItem s productId with
  | none => none
  | some item =>
      match item.product with
      | none => none
      | some p => some (max 1 (min (jsNumOr parsed 1) p.stock))

/-- The Set.has test driving the disabled attributes in the item row. -/
def isUpdating (s : CartState) (productId : String) : Bool :=
  s.updatingItems.contains productId

/-- disabled attribute of the decrement button: `isUpdating || item.quantity <= 1`. -/
def decrementDisabled (s : CartState) (item : CartItem) (p : Product) : Bool :=
  isUpdating s p.id || decide (item.quantity ≤ 1)

/-- disabled attribute of the quantity input: `isUpdating`. -/
def inputDisabled (s : CartState) (p : Product) : Bool :=
  isUpdating s p.id

/-- disabled attribute of the increment button: `isUpdating || item.quantity >= product.stock`. -/
def incrementDisabled (s : CartState) (item : CartItem) (p : Product) : Bool :=
  isUpdating s p.id || decide (item.quantity ≥ p.stock)

/-- disabled attribute of the remove button: `isUpdating`. -/
def removeDisabled (s : CartState) (p : Product) : Bool :=
  isUpdating s p.id

/-- Navigation target record for react-router `navigate` calls:
destination, the `state.from.pathname` payload, and the replace flag. -/
structure NavTarget where
  dest : String
  statePathname : Option String
  replace : Bool
deriving DecidableEq

/-- The cart page mount effect: without a truthy token, navigate to /login
preserving `{ from: { pathname: "/cart" } }` in the navigation state and fetch
nothing; with a token, fetch the cart. -/
def mountEffect (token : Option String) : Option NavTarget × List ApiCall :=
  if !(truthy token) then
    (some { dest := "/login", statePathname := some "/cart", replace := false }, [])
  else (none, [ApiCall.getCart])

end Cart

namespace ProductDetail

/-- Local state of the product detail page. -/
structure ProductDetailState where
  product : Option Product
  loading : Bool
  error : String
  quantity : Int
  addingToCart : Bool
  cartMessage : String
deriving DecidableEq

/-- fetchProduct: on success store the product and reset the quantity to 1;
otherwise record the failure message; loading cleared in the finally block. -/
def fetchProduct (s : ProductDetailState) (id : String) (outcome : FetchOutcome Product) :
    ProductDetailState × List ApiCall :=
  let s1 : ProductDetailState := { s with loading := true, error := "" }
  let s2 : ProductDetailState :=
    match outcome with
    | .ok env =>
        if env.success then { s1 with product := some env.data, quantity := 1 }
        else { s1 with error := jsOr env.message "Product not found" }
    | .thrown e =>
        { s1 with error := errMessage e "An error occurred while fetching the product. Please try again." }
  ({ s2 with loading := false }, [ApiCall.getProductById id])

/-- handleAddToCart: without a truthy token, navigate to /login preserving the
detail page path; otherwise post the add and only flash a message —
no cart fetch follows in either branch. -/
def handleAddToCart (s : ProductDetailState) (token : Option String) (id : String)
    (outcome : FetchOutcome Unit) :
    ProductDetailState × List ApiCall × Option Cart.NavTarget :=
  if !(truthy token) then
    (s, [], some { dest := "/login", statePathname := some ("/products/" ++ id), replace := false })
  else
    let s1 : ProductDetailState := { s with addingToCart := true, cartMessage := "" }
    let s2 : ProductDetailState :=
      match outcome with
      | .ok env =>
          if env.success then { s1 with cartMessage := "Item added to cart successfully!" }
          else { s1 with cartMessage := jsOr env.message "Failed to add item to cart" }
      | .thrown e =>
          { s1 with cartMessage := errMessage e "Failed to add item to cart. Please try again." }
    ({ s2 with addingToCart := false }, [ApiCall.addToCart id s.quantity], none)

/-- handleQuantityChange (stepper buttons):
`setQuantity(prev => Math.max(1, Math.min(prev + delta, product.stock)))`. -/
def handleQuantityChange (s : ProductDetailState) (delta : Int) : ProductDetailState :=
  match s.product with
  | none => s
  | some p => { s with quantity := max 1 (min (s.quantity + delta) p.stock) }

/-- handleQuantityInputChange (typed value):
`setQuantity(Math.max(1, Math.min(parseInt(value) || 1, product.stock)))`;
`parsed` is the result of `parseInt(value)` with `none` modelling NaN. -/
def handleQuantityInputChange (s : ProductDetailState) (parsed : Option Int) : ProductDetailState :=
  match s.product with
  | none => s
  | some p => { s with quantity := max 1 (min (jsNumOr parsed 1) p.stock) }

/-- disabled attribute of the decrement button: `quantity <= 1`. -/
def decrementDisabled (s : ProductDetailState) : Bool :=
  decide (s.quantity ≤ 1)

/-- disabled attribute of the increment button: `quantity >= product.stock`. -/
def incrementDisabled (s : ProductDetailState) (p : Product) : Bool :=
  decide (s.quantity ≥ p.stock)

end ProductDetail

namespace Products

/-- The list payload of GET /products: `response.data.products` may be absent. -/
structure ProductsPayload where
  products : Option (List Product)
deriving DecidableEq

/-- Local state of the product listing page. -/
structure ProductsState where
  products : List Product
  loading : Bool
  error : String
  searchTerm : String
  sortBy : String
deriving DecidableEq

/-- fetchProducts: issues GET /products with `{sort, ...(search && {search})}`
(the search param is omitted when falsy); on success stores
`response.data.products || []`; failures are recorded as the inline error. -/
def fetchProducts (s : ProductsState) (search sort : String)
    (outcome : FetchOutcome ProductsPayload) : ProductsState × List ApiCall :=
  let s1 : ProductsState := { s with loading := true, error := "" }
  let s2 : ProductsState :=
    match outcome with
    | .ok env =>
        if env.success then { s1 with products := env.data.products.getD [] }
        else { s1 with error := jsOr env.message "Failed to fetch products" }
    | .thrown e =>
        { s1 with error := errMessage e "An error occurred while fetching products. Please try again." }
  ({ s2 with loading := false },
    [ApiCall.getProducts (if search != "" then some search else none) sort])

/-- What the search effect does on a change of the search term
(Products.jsx lines 53-59): a non-empty term goes through the debounced
function, the empty term fetches immediately. -/
inductive SearchAction where
  | debounced (term : String)
  | immediate
deriving DecidableEq

/-- The branch taken by the search effect for a given term. -/
def searchEffect (searchTerm : String) : SearchAction :=
  if searchTerm != "" then .debounced searchTerm else .immediate

/-- Timeline simulation of the search pipeline.  `instanceId` is the identity of
the current `debouncedSearch` closure: `fetchProducts` is a `useCallback` with
deps `[searchTerm, sortBy]`, so every change of the search term recreates it,
and `debouncedSearch` is a `useMemo` with deps `[sortBy, fetchProducts]`, so it
is recreated along with it.  Each pending debounce timer is tagged with the
instance that owns it, because a debounced function can only clear the timer
held in its own closure.  `timers` holds `(owner instance, fire time, term)`;
`requests` are the GET /products calls already issued, as `(time, term)`. -/
structure SearchSim where
  instanceId : Nat
  timers : List (Nat × Nat × String)
  requests : List (Nat × String)
deriving DecidableEq

/-- Modelled from the spec: the debounce utility
(`src/frontend/src/utils/debounce`, imported by Products.jsx but not present in
this excerpt).  The spec describes it as a time-debounced refetch with a fixed
delay: a standard trailing-edge debounce whose each call clears the pending
timer held in its own closure and schedules the wrapped call `delay` ms later. -/
def debounceCall (delay : Nat) (sim : SearchSim) (now : Nat) (v : String) : SearchSim :=
  { sim with
    timers := (sim.instanceId, now + delay, v)
      :: sim.timers.filter (fun t => t.1 != sim.instanceId) }

/-- Advance time to `now`: pending timers whose fire time has arrived issue
their request. -/
def fireDue (sim : SearchSim) (now : Nat) : SearchSim :=
  { sim with
    timers := sim.timers.filter (fun t => decide (now < t.2.1)),
    requests := sim.requests
      ++ (sim.timers.filter (fun t => decide (t.2.1 ≤ now))).map (fun t => (t.2.1, t.2.2)) }

/-- One keystroke changing the search term at time `ev.1` to value `ev.2`:
the term change recreates `fetchProducts` and with it `debouncedSearch`
(fresh `instanceId`), then the search effect runs — through the fresh
debounced function for a non-empty term, immediately for the empty term. -/
def keystroke (delay : Nat) (sim : SearchSim) (ev : Nat × String) : SearchSim :=
  let sim1 := { fireDue sim ev.1 with instanceId := sim.instanceId + 1 }
  match searchEffect ev.2 with
  | .debounced term => debounceCall delay sim1 ev.1 term
  | .immediate => { sim1 with requests := sim1.requests ++ [(ev.1, "")] }

/-- Run a burst of keystrokes (time-ordered) and let every remaining timer
fire: the full list of GET /products requests the burst produces. -/
def runSearch (delay : Nat) (events : List (Nat × String)) : List (Nat × String) :=
  let f := events.foldl (keystroke delay) ⟨0, [], []⟩
  f.requests ++ f.timers.map (fun t => (t.2.1, t.2.2))

end Products

namespace Navbar

/-- Local state of the navigation bar. -/
structure NavbarState where
  cartCount : Int
  loadingCart : Bool
deriving DecidableEq

/-- fetchCartCount: without a truthy token the count is reset to 0 and no call
made; otherwise GET /cart is issued and, on success, the count becomes
`response.data.itemCount || 0`; a thrown error silently resets the count to 0;
a failure envelope leaves the count untouched. -/
def fetchCartCount (s : NavbarState) (token : Option String)
    (outcome : FetchOutcome CartData) : NavbarState × List ApiCall :=
  if !(truthy token) then ({ s with cartCount := 0 }, [])
  else
    let s1 : NavbarState := { s with loadingCart := true }
    let s2 : NavbarState :=
      match outcome with
      | .ok env =>
          if env.success then { s1 with cartCount := jsNumOr (some env.data.itemCount) 0 }
          else s1
      | .thrown _ => { s1 with cartCount := 0 }
    ({ s2 with loadingCart := false }, [ApiCall.getCart])

/-- The navbar template renders no error element at all: whatever happens to the
count fetch, no error text appears in the navigation bar. -/
def errorDisplay (_ : NavbarState) : Option String := none

/-- The route-change effect (Navbar.jsx lines 39-43) calls fetchCartCount iff
`token && (location.pathname === "/cart" || location.pathname === "/products")`. -/
def routeChangeFetches (token : Option String) (pathname : String) : Bool :=
  truthy token && (pathname == "/cart" || pathname == "/products")

/-- The cart badge: rendered with the count only when `cartCount > 0`. -/
def cartBadge (s : NavbarState) : Option Int :=
  if 0 < s.cartCount then some s.cartCount else none

end Navbar

/-- The session holder: in-memory token and user of the AuthProvider, paired
with the localStorage it persists the token in. -/
structure AuthState where
  token : Option String
  user : Option String
  storage : Store
deriving DecidableEq

namespace AuthContext

/-- Provider initialization: `useState(localStorage.getItem('token'))`. -/
def init (storage : Store) : AuthState :=
  { token := storeGet storage "token", user := none, storage := storage }

/-- login(newToken, userData): set both React states and persist the token. -/
def login (a : AuthState) (newToken : String) (userData : String) : AuthState :=
  { token := some newToken, user := some userData,
    storage := storeSet a.storage "token" newToken }

/-- logout(): clear both React states and remove the persisted token. -/
def logout (a : AuthState) : AuthState :=
  { token := none, user := none, storage := storeRemove a.storage "token" }

/-- The startup profile-validation effect (AuthContext in this excerpt, the
getProfile variant): with a truthy token, fetch the profile; on a success
envelope store the user; on a failure envelope or a thrown error clear the
token from both React state and localStorage. -/
def fetchUserProfile (a : AuthState) (outcome : FetchOutcome String) : AuthState :=
  if truthy a.token then
    match outcome with
    | .ok env =>
        if env.success then { a with user := some env.data }
        else { a with token := none, storage := storeRemove a.storage "token" }
    | .thrown _ => { a with token := none, storage := storeRemove a.storage "token" }
  else a

/-- The consistency invariant between the session holder and localStorage:
the in-memory token equals the persisted value under the fixed key. -/
def tokenInvariant (a : AuthState) : Prop :=
  a.token = storeGet a.storage "token"

end AuthContext

namespace Login

/-- Local state of the login page. -/
structure LoginState where
  email : String
  password : String
  error : String
  loading : Bool
deriving DecidableEq

/-- The payload of a successful POST /auth/login. -/
structure LoginData where
  token : String
  user : String
deriving DecidableEq

/-- The destination preserved across the login redirect:
`location.state?.from?.pathname || '/products'` (the optional chain is
flattened into one nullable string). -/
def loginFrom (statePathname : Option String) : String :=
  jsOr statePathname "/products"

/-- Everything handleSubmit produces: the page state, the session holder, the
navigation performed, and the API calls issued. -/
structure SubmitResult where
  page : LoginState
  auth : AuthState
  nav : Option Cart.NavTarget
  calls : List ApiCall
deriving DecidableEq

/-- handleSubmit: empty email or password short-circuits with a validation
error; otherwise POST /auth/login, and on a success envelope store the session
(AuthContext.login) and navigate to the preserved destination with replace;
failures surface as the inline error. -/
def handleSubmit (s : LoginState) (statePathname : Option String)
    (outcome : FetchOutcome LoginData) (auth : AuthState) : SubmitResult :=
  let s1 : LoginState := { s with error := "", loading := true }
  if s.email == "" || s.password == "" then
    { page := { s1 with error := "Please fill in all fields", loading := false },
      auth := auth, nav := none, calls := [] }
  else
    let r : LoginState × AuthState × Option Cart.NavTarget :=
      match outcome with
      | .ok env =>
          if env.success then
            (s1, AuthContext.login auth env.data.token env.data.user,
              some { dest := loginFrom statePathname, statePathname := none, replace := true })
          else
            ({ s1 with error := jsOr env.message "Login failed" }, auth, none)
      | .thrown e =>
          ({ s1 with error := errMessage e "An error occurred during login. Please try again." },
            auth, none)
    { page := { r.1 with loading := false }, auth := r.2.1, nav := r.2.2,
      calls := [ApiCall.postLogin s.email s.password] }

end Login

/-- A concrete product used by witnesses and counterexamples. -/
def sampleProduct : Product :=
  { id := "p1", name := "Widget", price := 5, stock := 10 }

/-- A concrete cart line holding `sampleProduct`. -/
def sampleItem : CartItem :=
  { id := "ci1", quantity := 2, product := some sampleProduct }

/-- A concrete server cart payload. -/
def sampleCart : CartData :=
  { items := [sampleItem], subtotal := 10, itemCount := 2 }

/-- A concrete cart page state holding `sampleCart`. -/
def sampleCartState : CartState :=
  { cart := some sampleCart, loading := false, error := "", updatingItems := [], message := "" }

/-- A concrete product detail page state. -/
def samplePdState : ProductDetail.ProductDetailState :=
  { product := some sampleProduct, loading := false, error := "",
    quantity := 1, addingToCart := false, cartMessage := "" }

/-- The interactive controls the error views render, by what the source wires
them to. -/
inductive ErrorViewAction where
  | tryAgainButton
  | backToProductsLink
deriving DecidableEq

/-- Whether an error-view control reissues the failed request: the cart's Try
Again button has `onClick={fetchCart}`; the detail page's Back to Products
link only navigates away. -/
def reissuesFailedFetch : ErrorViewAction → Bool
  | .tryAgainButton => true
  | .backToProductsLink => false

namespace Cart

/-- The cart page error screen: past the initial-load spinner
(`if (loading && !cart)`), a non-empty error renders the error text together
with a Try Again button wired straight to fetchCart. -/
def errorScreen (s : CartState) : Option (String × List ErrorViewAction) :=
  if s.loading && s.cart.isNone then none
  else if s.error != "" then some (s.error, [ErrorViewAction.tryAgainButton])
  else none

end Cart

namespace ProductDetail

/-- The product detail error screen: past the spinner (`if (loading)`), the
branch `if (error || !product)` renders the error text — or a not-found
fallback — and only a Back to Products link; no control reissues the fetch. -/
def errorScreen (s : ProductDetailState) : Option (String × List ErrorViewAction) :=
  if s.loading then none
  else if s.error != "" || s.product.isNone then
    some ((if s.error != "" then s.error
      else "The product you are looking for does not exist."),
      [ErrorViewAction.backToProductsLink])
  else none

end ProductDetail

namespace Products

/-- The products listing error display: past the initial-load spinner
(`if (loading && products.length === 0)`), a non-empty error renders as a bare
role=alert div holding the error text, with no control inside it. -/
def errorDisplay (s : ProductsState) : Option (String × List ErrorViewAction) :=
  if s.loading && s.products.isEmpty then none
  else if s.error != "" then some (s.error, [])
  else none

end Products

namespace Login

/-- The login page error display: a non-empty error renders as a bare
role=alert div holding the error text, with no control inside it. -/
def errorDisplay (s : LoginState) : Option (String × List ErrorViewAction) :=
  if s.error != "" then some (s.error, []) else none

end Login

/-- Reading a key just written: localStorage round trip. -/
theorem storeGet_set_self (st : Store) (k v : String) :
    storeGet (storeSet st k v) k = some v := by
  simp [storeGet, storeSet]

/-- A removed key reads as null. -/
theorem storeGet_remove_self (st : Store) (k : String) :
    storeGet (storeRemove st k) k = none := by
  induction st with
  | nil => rfl
  | cons p t ih =>
      simp [storeRemove, storeGet] at ih ⊢

/-- Writing one key leaves every other key unchanged. -/
theorem storeGet_set_other (st : Store) (k v k2 : String) (h : k2 ≠ k) :
    storeGet (storeSet st k v) k2 = storeGet st k2 := by
  induction st with
  | nil => simp [storeGet, storeSet, h, Ne.symm h]
  | cons p t ih =>
      by_cases hp : p.1 = k
      · simpa [storeGet, storeSet, hp, h, Ne.symm h] using ih
      · by_cases hp2 : p.1 = k2
        · simp [storeGet, storeSet, hp, hp2, h, Ne.symm h]
        · simpa [storeGet, storeSet, hp, hp2, h, Ne.symm h] using ih

/-- Deleting an id from the updating set removes it. -/
theorem setDelete_not_mem (s : List String) (x : String) : x ∉ setDelete s x := by
  simp [setDelete, List.mem_filter]

/-- Adding an id to the updating set makes it a member. -/
theorem setAdd_mem (s : List String) (x : String) : x ∈ setAdd s x := by
  by_cases h : x ∈ s <;> simp [setAdd, h]

/-- JS `v || 0` on a number already known is the number itself. -/
theorem jsNumOr_some_zero (v : Int) : jsNumOr (some v) 0 = v := by
  by_cases h : v = 0 <;> simp [jsNumOr, h]

/-- The clamp the source computes, `max 1 (min (parseInt v || 1) stock)`, agrees
with the clamp the spec states, `max 1 (min (parse v) stock)` with non-numeric
input treated as 1: the two sides differ only when `parseInt` returns 0 (the one
falsy number), and both clamp that case to 1. -/
theorem clamp_code_eq_spec (pv : Option Int) (st : Int) :
    max 1 (min (jsNumOr pv 1) st) = max 1 (min (pv.getD 1) st) := by
  cases pv with
  | none => rfl
  | some v =>
      by_cases h : v = 0
      · simp only [jsNumOr, h, if_pos rfl, Option.getD_some]
        omega
      · simp [jsNumOr, h]

/-- The selected error message is never empty when the fallback is not: the
chain `respDataMessage || message || fallback` only ever falls through an
empty link. -/
theorem errMessage_ne_empty (e : JsError) (fb : String) (h : fb ≠ "") :
    errMessage e fb ≠ "" := by
  unfold errMessage jsOr
  cases e.respDataMessage with
  | none =>
      cases e.message with
      | none => exact h
      | some m => by_cases hm : m = "" <;> simp [hm, h]
  | some m =>
      by_cases hm : m = ""
      · simp only [hm, if_pos rfl]
        cases e.message with
        | none => exact h
        | some m2 => by_cases hm2 : m2 = "" <;> simp [hm2, h]
      · simp [hm]

/-- C2: for every response error carrying HTTP status 401, the interceptor
removes the token from persistent storage under the fixed key, redirects the
browser to /login exactly when the current path is not already /login, and the
error is still propagated to the caller as a rejected promise. -/
theorem C2_response_interceptor_401 (b : Browser) (e : JsError)
    (h : e.respStatus = some 401) :
    storeGet (responseErrorInterceptor b e).1.storage "token" = none ∧
    (b.pathname ≠ "/login" → (responseErrorInterceptor b e).1.redirectedTo = some "/login") ∧
    (b.pathname = "/login" → (responseErrorInterceptor b e).1.redirectedTo = b.redirectedTo) ∧
    (responseErrorInterceptor b e).2 = .rejected e := by
  by_cases hp : b.pathname = "/login" <;>
    simp [responseErrorInterceptor, h, hp, storeGet_remove_self]

/-- Witness for C2: a concrete 401 on /cart with a stored token. -/
theorem C2_witness :
    storeGet (responseErrorInterceptor ⟨[("token", "t0")], "/cart", none⟩
        ⟨some 401, none, none⟩).1.storage "token" = none ∧
    (responseErrorInterceptor ⟨[("token", "t0")], "/cart", none⟩
        ⟨some 401, none, none⟩).1.redirectedTo = some "/login" ∧
    (responseErrorInterceptor ⟨[("token", "t0")], "/cart", none⟩
        ⟨some 401, none, none⟩).2 = .rejected ⟨some 401, none, none⟩ := by
  have h := C2_response_interceptor_401 ⟨[("token", "t0")], "/cart", none⟩
    ⟨some 401, none, none⟩ rfl
  exact ⟨h.1, h.2.1 (by decide), h.2.2.2⟩

/-- C3 counterexample: with the empty string stored under the fixed key, a token
IS present in persistent storage, yet the request interceptor attaches no
Authorization header — `if (token)` is a truthiness test and the empty string
is falsy in JavaScript. -/
theorem C3_counterexample :
    storeGet [("token", "")] "token" = some "" ∧
    requestInterceptor [("token", "")] { url := "/cart", headers := [] }
      = { url := "/cart", headers := [] } ∧
    storeGet (requestInterceptor [("token", "")]
      { url := "/cart", headers := [] }).headers "Authorization" = none :=
  ⟨rfl, rfl, rfl⟩

/-- C3 (amended): when a NON-EMPTY token is stored under the fixed key, every
outbound request carries Authorization set to the Bearer token while the URL
and all other headers are unchanged; when the key is absent, or holds the empty
string, the request passes through entirely unchanged. -/
theorem C3_bearer_token_header (storage : Store) (config : RequestConfig) (t : String)
    (ht : storeGet storage "token" = some t) (hne : t ≠ "") :
    storeGet (requestInterceptor storage config).headers "Authorization"
      = some ("Bearer " ++ t) ∧
    (requestInterceptor storage config).url = config.url ∧
    (∀ k, k ≠ "Authorization" →
      storeGet (requestInterceptor storage config).headers k = storeGet config.headers k) ∧
    (∀ st2, storeGet st2 "token" = none → requestInterceptor st2 config = config) ∧
    (∀ st2, storeGet st2 "token" = some "" → requestInterceptor st2 config = config) := by
  refine ⟨?_, ?_, ?_, ?_, ?_⟩
  · simp [requestInterceptor, ht, hne, storeGet_set_self]
  · simp [requestInterceptor, ht, hne]
  · intro k hk
    simp [requestInterceptor, ht, hne, storeGet_set_other _ _ _ _ hk]
  · intro st2 h2
    simp [requestInterceptor, h2]
  · intro st2 h2
    simp [requestInterceptor, h2]

/-- Witness for C3: a concrete non-empty token and a request with one prior header. -/
theorem C3_witness :
    storeGet (requestInterceptor [("token", "abc")]
      { url := "/cart", headers := [("Accept", "json")] }).headers "Authorization"
      = some ("Bearer " ++ "abc") ∧
    storeGet (requestInterceptor [("token", "abc")]
      { url := "/cart", headers := [("Accept", "json")] }).headers "Accept"
      = storeGet [("Accept", "json")] "Accept" := by
  have h := C3_bearer_token_header [("token", "abc")]
    { url := "/cart", headers := [("Accept", "json")] } "abc" rfl (by decide)
  exact ⟨h.1, h.2.2.1 "Accept" (by decide)⟩

/-- C10: every session-holder operation preserves agreement between the
in-memory token and the value persisted under the fixed key: initialization
reads the store, login(newToken, user) sets both to the new token, logout
clears both, and the startup profile validation clears both together on a
failure envelope or a thrown error while touching neither on success. -/
theorem C10_token_storage_agreement (st : Store) (a : AuthState) (t u : String)
    (outcome : FetchOutcome String) (h : AuthContext.tokenInvariant a) :
    AuthContext.tokenInvariant (AuthContext.init st) ∧
    AuthContext.tokenInvariant (AuthContext.login a t u) ∧
    (AuthContext.login a t u).token = some t ∧
    storeGet (AuthContext.login a t u).storage "token" = some t ∧
    AuthContext.tokenInvariant (AuthContext.logout a) ∧
    (AuthContext.logout a).token = none ∧
    storeGet (AuthContext.logout a).storage "token" = none ∧
    AuthContext.tokenInvariant (AuthContext.fetchUserProfile a outcome) := by
  refine ⟨rfl, ?_, rfl, ?_, ?_, rfl, ?_, ?_⟩
  · simp [AuthContext.tokenInvariant, AuthContext.login, storeGet_set_self]
  · simp [AuthContext.login, storeGet_set_self]
  · simp [AuthContext.tokenInvariant, AuthContext.logout, storeGet_remove_self]
  · simp [AuthContext.logout, storeGet_remove_self]
  · unfold AuthContext.fetchUserProfile
    by_cases htk : truthy a.token = true
    · cases outcome with
      | ok env =>
          by_cases hs : env.success = true
          · simpa [htk, hs, AuthContext.tokenInvariant] using h
          · simp [htk, hs, AuthContext.tokenInvariant, storeGet_remove_self]
      | thrown e => simp [htk, AuthContext.tokenInvariant, storeGet_remove_self]
    · simpa [htk] using h

/-- Witness for C10: a concrete session started from a stored token whose
profile validation throws. -/
theorem C10_witness :
    AuthContext.tokenInvariant
      (AuthContext.fetchUserProfile (AuthContext.init [("token", "t0")])
        (.thrown ⟨none, none, none⟩)) :=
  (C10_token_storage_agreement [("token", "t0")] (AuthContext.init [("token", "t0")])
    "t" "u" (.thrown ⟨none, none, none⟩) rfl).2.2.2.2.2.2.2

/-- C1 counterexample: a successful add-to-cart from the product detail page
issues no cart fetch at all — the only request is the POST, and the view merely
flashes a confirmation message; no client cart state is replaced with a fresh
server cart after this mutation. -/
theorem C1_counterexample :
    (ProductDetail.handleAddToCart samplePdState (some "tok") "p1"
      (.ok ⟨true, (), none⟩)).2.1 = [ApiCall.addToCart "p1" 1] ∧
    ApiCall.getCart ∉
      (ProductDetail.handleAddToCart samplePdState (some "tok") "p1"
        (.ok ⟨true, (), none⟩)).2.1 ∧
    (ProductDetail.handleAddToCart samplePdState (some "tok") "p1"
      (.ok ⟨true, (), none⟩)).1.cartMessage = "Item added to cart successfully!" := by
  decide

/-- C1 (amended): after every cart-VIEW mutation (update quantity, remove item,
clear cart) that the server reports successful, the client refetches the full
cart and replaces its cart state wholesale with the refetched server payload,
and the displayed subtotal and itemCount are taken verbatim from that last
server cart response, never computed client-side; add to cart, by contrast,
never issues a cart fetch — the product detail view holds no cart state and
only flashes a confirmation message. -/
theorem C1_cart_refetched_wholesale (s : CartState) (pid : String) (q : Int)
    (mutEnv : Envelope Unit) (cartEnv : Envelope CartData)
    (pdS : ProductDetail.ProductDetailState) (tok : Option String) (pidD : String)
    (outD : FetchOutcome Unit)
    (hq : 1 ≤ q) (hmu : mutEnv.success = true) (hcs : cartEnv.success = true) :
    ((Cart.handleUpdateQuantity s pid q (.ok mutEnv) (.ok cartEnv)).1.cart = some cartEnv.data ∧
      ApiCall.getCart ∈ (Cart.handleUpdateQuantity s pid q (.ok mutEnv) (.ok cartEnv)).2) ∧
    ((Cart.handleRemoveItem s pid (.ok mutEnv) (.ok cartEnv)).1.cart = some cartEnv.data ∧
      ApiCall.getCart ∈ (Cart.handleRemoveItem s pid (.ok mutEnv) (.ok cartEnv)).2) ∧
    ((Cart.handleClearCart s true (.ok mutEnv) (.ok cartEnv)).1.cart = some cartEnv.data ∧
      ApiCall.getCart ∈ (Cart.handleClearCart s true (.ok mutEnv) (.ok cartEnv)).2) ∧
    Cart.subtotal (Cart.handleUpdateQuantity s pid q (.ok mutEnv) (.ok cartEnv)).1
      = cartEnv.data.subtotal ∧
    Cart.itemCount (Cart.handleUpdateQuantity s pid q (.ok mutEnv) (.ok cartEnv)).1
      = cartEnv.data.itemCount ∧
    ApiCall.getCart ∉ (ProductDetail.handleAddToCart pdS tok pidD outD).2.1 := by
  have hq1 : ¬ (q < 1) := by omega
  refine ⟨⟨?_, ?_⟩, ⟨?_, ?_⟩, ⟨?_, ?_⟩, ?_, ?_, ?_⟩
  · simp [Cart.handleUpdateQuantity, Cart.beginItemUpdate, Cart.fetchCart, hq1, hmu, hcs]
  · simp [Cart.handleUpdateQuantity, hq1, hmu]
  · simp [Cart.handleRemoveItem, Cart.beginItemUpdate, Cart.fetchCart, hmu, hcs]
  · simp [Cart.handleRemoveItem, hmu]
  · simp [Cart.handleClearCart, Cart.fetchCart, hmu, hcs]
  · simp [Cart.handleClearCart, hmu]
  · simp [Cart.handleUpdateQuantity, Cart.beginItemUpdate, Cart.fetchCart, hq1, hmu, hcs,
      Cart.subtotal, jsNumOr_some_zero]
  · simp [Cart.handleUpdateQuantity, Cart.beginItemUpdate, Cart.fetchCart, hq1, hmu, hcs,
      Cart.itemCount, jsNumOr_some_zero]
  · unfold ProductDetail.handleAddToCart
    by_cases htk : truthy tok = true
    · cases outD with
      | ok env => by_cases hs : env.success = true <;> simp [htk, hs]
      | thrown e => simp [htk]
    · simp [htk]

/-- Witness for C1: a concrete successful quantity update whose refetch returns
`sampleCart`. -/
theorem C1_witness :
    (Cart.handleUpdateQuantity sampleCartState "p1" 3 (.ok ⟨true, (), none⟩)
      (.ok ⟨true, sampleCart, none⟩)).1.cart = some sampleCart :=
  (C1_cart_refetched_wholesale sampleCartState "p1" 3 ⟨true, (), none⟩
    ⟨true, sampleCart, none⟩ samplePdState (some "tok") "p1" (.ok ⟨true, (), none⟩)
    (by decide) rfl rfl).1.1

/-- C4: an unauthenticated visit to the cart view navigates to /login with the
requested destination /cart preserved in the navigation state; a successful
login then navigates (with replace) to the preserved destination — /cart when
it was preserved, /products when none was — and stores the new session. -/
theorem C4_cart_guard_roundtrip (token : Option String) (s : Login.LoginState)
    (env : Envelope Login.LoginData) (auth : AuthState)
    (hanon : truthy token = false) (he : s.email ≠ "") (hp : s.password ≠ "")
    (hs : env.success = true) :
    Cart.mountEffect token
      = (some { dest := "/login", statePathname := some "/cart", replace := false }, []) ∧
    (Login.handleSubmit s (some "/cart") (.ok env) auth).nav
      = some { dest := "/cart", statePathname := none, replace := true } ∧
    (Login.handleSubmit s none (.ok env) auth).nav
      = some { dest := "/products", statePathname := none, replace := true } ∧
    (Login.handleSubmit s (some "/cart") (.ok env) auth).auth.token = some env.data.token := by
  refine ⟨?_, ?_, ?_, ?_⟩
  · simp [Cart.mountEffect, hanon]
  · simp [Login.handleSubmit, he, hp, hs, Login.loginFrom, jsOr]
  · simp [Login.handleSubmit, he, hp, hs, Login.loginFrom, jsOr]
  · simp [Login.handleSubmit, he, hp, hs, AuthContext.login]

/-- Witness for C4: a concrete anonymous cart visit followed by a concrete
successful login with the preserved /cart destination. -/
theorem C4_witness :
    Cart.mountEffect none
      = (some { dest := "/login", statePathname := some "/cart", replace := false }, []) ∧
    (Login.handleSubmit ⟨"a@b.c", "pw", "", false⟩ (some "/cart")
      (.ok ⟨true, ⟨"tok", "u"⟩, none⟩) (AuthContext.init [])).nav
      = some { dest := "/cart", statePathname := none, replace := true } := by
  have h := C4_cart_guard_roundtrip none ⟨"a@b.c", "pw", "", false⟩
    ⟨true, ⟨"tok", "u"⟩, none⟩ (AuthContext.init []) rfl (by decide) (by decide) rfl
  exact ⟨h.1, h.2.1⟩

/-- C5 (the code evaluated at the failing input): with the fixed 500 ms delay,
a burst of two keystrokes 100 ms apart produces TWO requests — one per
keystroke, at 500 ms and 600 ms — not at most one: `fetchProducts` (useCallback
deps `[searchTerm, sortBy]`) and with it `debouncedSearch` (useMemo deps
`[sortBy, fetchProducts]`) are recreated on every keystroke, so each keystroke
schedules a timer in a fresh closure that no later call can cancel.  Clearing
the search to empty does refetch immediately, as claimed, but the pending
stale timer still fires afterwards. -/
theorem C5_debounce_defeated :
    Products.runSearch 500 [(0, "s"), (100, "sh")] = [(600, "sh"), (500, "s")] ∧
    (Products.runSearch 500 [(0, "s"), (100, "sh")]).length = 2 ∧
    Products.runSearch 500 [(0, "s"), (50, "")] = [(50, ""), (500, "s")] ∧
    Products.searchEffect "" = .immediate := by
  refine ⟨rfl, rfl, rfl, rfl⟩

/-- C6: client-side quantity handling clamps every entered quantity into
[1, stock]: the stored or submitted value is exactly `max 1 (min (parse v) stock)`
with non-numeric input treated as 1 (the code computes `parseInt(v) || 1`, which
agrees: the one divergent parse result, 0, also clamps to 1); decrement is
refused at quantity 1 and increment at quantity = stock, on the detail page
(disabled buttons, clamped stepper) and the cart page (the stepper handler
submits nothing outside [1, stock]). -/
theorem C6_quantity_clamped (pdS : ProductDetail.ProductDetailState) (p : Product)
    (parsed : Option Int) (s : CartState) (pid : String) (item : CartItem) (pc : Product)
    (hp : pdS.product = some p)
    (hfind : Cart.findItem s pid = some item) (hip : item.product = some pc) :
    (ProductDetail.handleQuantityInputChange pdS parsed).quantity
      = max 1 (min (parsed.getD 1) p.stock) ∧
    (∀ delta, (ProductDetail.handleQuantityChange pdS delta).quantity
      = max 1 (min (pdS.quantity + delta) p.stock)) ∧
    (pdS.quantity ≤ 1 → ProductDetail.decrementDisabled pdS = true) ∧
    (pdS.quantity ≥ p.stock → ProductDetail.incrementDisabled pdS p = true) ∧
    Cart.handleQuantityInputChange s pid parsed
      = some (max 1 (min (parsed.getD 1) pc.stock)) ∧
    (item.quantity = 1 → Cart.handleQuantityChange s pid (-1) = none) ∧
    (item.quantity = pc.stock → Cart.handleQuantityChange s pid 1 = none) := by
  refine ⟨?_, ?_, ?_, ?_, ?_, ?_, ?_⟩
  · simp [ProductDetail.handleQuantityInputChange, hp, clamp_code_eq_spec]
  · intro delta
    simp [ProductDetail.handleQuantityChange, hp]
  · intro h
    simpa [ProductDetail.decrementDisabled] using h
  · intro h
    simpa [ProductDetail.incrementDisabled] using h
  · simp [Cart.handleQuantityInputChange, hfind, hip, clamp_code_eq_spec]
  · intro h
    simp only [Cart.handleQuantityChange, hfind, hip, h]
    rw [if_neg]
    omega
  · intro h
    simp only [Cart.handleQuantityChange, hfind, hip, h]
    rw [if_neg]
    omega

/-- Witness for C6: typing 50 with stock 10 clamps to 10 on both pages. -/
theorem C6_witness :
    (ProductDetail.handleQuantityInputChange samplePdState (some 50)).quantity
      = max 1 (min ((some (50 : Int)).getD 1) sampleProduct.stock) ∧
    Cart.handleQuantityInputChange sampleCartState "p1" (some 50)
      = some (max 1 (min ((some (50 : Int)).getD 1) sampleProduct.stock)) := by
  have h := C6_quantity_clamped samplePdState sampleProduct (some 50) sampleCartState
    "p1" sampleItem sampleProduct rfl (by decide) rfl
  exact ⟨h.1, h.2.2.2.2.1⟩

/-- C7 counterexample: two concrete failures refute the claim as stated.  The
navbar surfaces nothing: after a network failure its state is literally
identical to the state after a SUCCESSFUL fetch of an empty cart, and it
renders no error element.  And the views that do surface a message do not all
offer a retry action: the product detail error screen shows the message but
its only control is a Back to Products link, which does not reissue the fetch,
and the products listing renders the bare message with no control inside it. -/
theorem C7_counterexample :
    (Navbar.fetchCartCount ⟨5, false⟩ (some "tok")
        (.thrown ⟨none, none, some "Network Error"⟩)).1
      = (Navbar.fetchCartCount ⟨0, false⟩ (some "tok")
          (.ok ⟨true, ⟨[], 0, 0⟩, none⟩)).1 ∧
    Navbar.errorDisplay (Navbar.fetchCartCount ⟨5, false⟩ (some "tok")
        (.thrown ⟨none, none, some "Network Error"⟩)).1 = none ∧
    ProductDetail.errorScreen (ProductDetail.fetchProduct samplePdState "p1"
        (.thrown ⟨none, none, some "Network Error"⟩)).1
      = some ("Network Error", [ErrorViewAction.backToProductsLink]) ∧
    reissuesFailedFetch ErrorViewAction.backToProductsLink = false ∧
    Products.errorDisplay (Products.fetchProducts ⟨[], false, "", "", "newest"⟩ "" "newest"
        (.thrown ⟨none, none, some "Network Error"⟩)).1
      = some ("Network Error", []) := by
  refine ⟨rfl, rfl, rfl, rfl, rfl⟩

/-- C7 (amended): every network failure in every view is caught locally and no
fetch exception propagates into the render tree (every handler is a total
state transition); the page views surface the failure as an inline error
message — the server-provided message when available and non-empty, then the
caught error's own message, then a fixed fallback — but the retry affordance
varies: only the cart view couples the message with a retry action (a Try
Again button reissuing fetchCart); the product detail error view offers only a
Back to Products link, which reissues nothing; the products and login views
render the bare message with no control inside it; and the navbar surfaces
nothing at all, silently resetting its count to 0. -/
theorem C7_errors_caught (e : JsError) (s : CartState) (ps : Products.ProductsState)
    (pdS : ProductDetail.ProductDetailState) (ls : Login.LoginState) (auth : AuthState)
    (nv : Navbar.NavbarState) (tok search sort pid : String) (sp : Option String)
    (he : ls.email ≠ "") (hpw : ls.password ≠ "") (htok : tok ≠ "") :
    Cart.errorScreen (Cart.fetchCart s (.thrown e))
      = some (errMessage e "An error occurred while fetching your cart. Please try again.",
          [ErrorViewAction.tryAgainButton]) ∧
    reissuesFailedFetch ErrorViewAction.tryAgainButton = true ∧
    ProductDetail.errorScreen (ProductDetail.fetchProduct pdS pid (.thrown e)).1
      = some (errMessage e "An error occurred while fetching the product. Please try again.",
          [ErrorViewAction.backToProductsLink]) ∧
    reissuesFailedFetch ErrorViewAction.backToProductsLink = false ∧
    Products.errorDisplay (Products.fetchProducts ps search sort (.thrown e)).1
      = some (errMessage e "An error occurred while fetching products. Please try again.", []) ∧
    Login.errorDisplay (Login.handleSubmit ls sp (.thrown e) auth).page
      = some (errMessage e "An error occurred during login. Please try again.", []) ∧
    (∀ m, e.respDataMessage = some m → m ≠ "" → ∀ fb, errMessage e fb = m) ∧
    (e.respDataMessage = none → e.message = none → ∀ fb, errMessage e fb = fb) ∧
    (Navbar.fetchCartCount nv (some tok) (.thrown e)).1
      = { cartCount := 0, loadingCart := false } ∧
    Navbar.errorDisplay (Navbar.fetchCartCount nv (some tok) (.thrown e)).1 = none := by
  refine ⟨?_, rfl, ?_, rfl, ?_, ?_, ?_, ?_, ?_, rfl⟩
  · have hne := errMessage_ne_empty e
      "An error occurred while fetching your cart. Please try again." (by decide)
    simp [Cart.errorScreen, Cart.fetchCart, hne]
  · have hne := errMessage_ne_empty e
      "An error occurred while fetching the product. Please try again." (by decide)
    simp [ProductDetail.errorScreen, ProductDetail.fetchProduct, hne]
  · have hne := errMessage_ne_empty e
      "An error occurred while fetching products. Please try again." (by decide)
    simp [Products.errorDisplay, Products.fetchProducts, hne]
  · have hne := errMessage_ne_empty e
      "An error occurred during login. Please try again." (by decide)
    simp [Login.errorDisplay, Login.handleSubmit, he, hpw, hne]
  · intro m hm hne fb
    simp [errMessage, jsOr, hm, hne]
  · intro h1 h2 fb
    simp [errMessage, jsOr, h1, h2]
  · simp [Navbar.fetchCartCount, truthy, htok]

/-- Witness for C7: a concrete thrown error with a server-provided message,
showing the cart error screen with its retry button and the silent navbar. -/
theorem C7_witness :
    Cart.errorScreen (Cart.fetchCart sampleCartState (.thrown ⟨none, some "Boom", none⟩))
      = some (errMessage ⟨none, some "Boom", none⟩
          "An error occurred while fetching your cart. Please try again.",
          [ErrorViewAction.tryAgainButton]) ∧
    (Navbar.fetchCartCount ⟨3, false⟩ (some "tok") (.thrown ⟨none, some "Boom", none⟩)).1
      = { cartCount := 0, loadingCart := false } := by
  have h := C7_errors_caught ⟨none, some "Boom", none⟩ sampleCartState
    ⟨[], false, "", "", "newest"⟩ samplePdState ⟨"a@b.c", "pw", "", false⟩
    (AuthContext.init []) ⟨3, false⟩ "tok" "" "newest" "p1" none
    (by decide) (by decide) (by decide)
  exact ⟨h.1, h.2.2.2.2.2.2.2.2.1⟩

/-- C8: for every item mutation round trip, the product id is in the updating
set of the state established before the request is awaited (`beginItemUpdate`,
used verbatim by both handlers), and it is absent from the final state whatever
the outcome — success, failure envelope, or thrown error (the outcome is
universally quantified); while an id is in the set, that row's decrement,
input, increment and remove controls are all disabled. -/
theorem C8_updating_marker (s : CartState) (pid : String) (q : Int)
    (mutRes : FetchOutcome Unit) (refetch : FetchOutcome CartData)
    (s2 : CartState) (item : CartItem) (p : Product)
    (hq : 1 ≤ q) (hmem : p.id ∈ s2.updatingItems) :
    pid ∈ (Cart.beginItemUpdate s pid).updatingItems ∧
    pid ∉ (Cart.handleUpdateQuantity s pid q mutRes refetch).1.updatingItems ∧
    pid ∉ (Cart.handleRemoveItem s pid mutRes refetch).1.updatingItems ∧
    Cart.decrementDisabled s2 item p = true ∧
    Cart.inputDisabled s2 p = true ∧
    Cart.incrementDisabled s2 item p = true ∧
    Cart.removeDisabled s2 p = true := by
  have hq1 : ¬ (q < 1) := by omega
  refine ⟨setAdd_mem _ _, ?_, ?_, ?_, ?_, ?_, ?_⟩
  · unfold Cart.handleUpdateQuantity
    cases mutRes with
    | ok env =>
        by_cases hs2 : env.success = true <;>
          simp [hq1, hs2, Cart.fetchCart, Cart.beginItemUpdate, setDelete_not_mem]
    | thrown e2 => simp [hq1, Cart.beginItemUpdate, setDelete_not_mem]
  · unfold Cart.handleRemoveItem
    cases mutRes with
    | ok env =>
        by_cases hs2 : env.success = true <;>
          simp [hs2, Cart.fetchCart, Cart.beginItemUpdate, setDelete_not_mem]
    | thrown e2 => simp [Cart.beginItemUpdate, setDelete_not_mem]
  · simp [Cart.decrementDisabled, Cart.isUpdating, hmem]
  · simp [Cart.inputDisabled, Cart.isUpdating, hmem]
  · simp [Cart.incrementDisabled, Cart.isUpdating, hmem]
  · simp [Cart.removeDisabled, Cart.isUpdating, hmem]

/-- Witness for C8: a concrete round trip that throws, and a concrete row whose
id sits in the updating set. -/
theorem C8_witness :
    "p1" ∈ (Cart.beginItemUpdate sampleCartState "p1").updatingItems ∧
    "p1" ∉ (Cart.handleUpdateQuantity sampleCartState "p1" 2
      (.thrown ⟨none, none, none⟩) (.thrown ⟨none, none, none⟩)).1.updatingItems ∧
    Cart.removeDisabled ⟨some sampleCart, false, "", ["p1"], ""⟩ sampleProduct = true := by
  have h := C8_updating_marker sampleCartState "p1" 2 (.thrown ⟨none, none, none⟩)
    (.thrown ⟨none, none, none⟩) ⟨some sampleCart, false, "", ["p1"], ""⟩
    sampleItem sampleProduct (by decide) (by decide)
  exact ⟨h.1, h.2.1, h.2.2.2.2.2.2⟩

/-- C9 counterexample: with a token present, a route change landing on a
product detail path triggers no cart-count refetch — the route-change effect
fetches only for /cart and /products — refuting "on every route change". -/
theorem C9_counterexample :
    truthy (some "tok") = true ∧
    Navbar.routeChangeFetches (some "tok") "/products/42" = false := by
  refine ⟨rfl, rfl⟩

/-- C9 (amended): the navbar refetches the cart count on route changes landing
on /cart or /products while a token is present, and never without a truthy
token; with no token the count is 0 and no call is issued, a thrown fetch
resets the count to 0, a successful fetch stores the payload itemCount
verbatim, and no badge is rendered when the count is 0. -/
theorem C9_navbar_count (token : Option String) (t path : String)
    (nv : Navbar.NavbarState) (e : JsError) (env : Envelope CartData)
    (ht : t ≠ "") (hs : env.success = true) :
    Navbar.routeChangeFetches (some t) "/cart" = true ∧
    Navbar.routeChangeFetches (some t) "/products" = true ∧
    (truthy token = false → Navbar.routeChangeFetches token path = false) ∧
    Navbar.fetchCartCount nv none (.ok env) = ({ nv with cartCount := 0 }, []) ∧
    (Navbar.fetchCartCount nv (some t) (.thrown e)).1.cartCount = 0 ∧
    (Navbar.fetchCartCount nv (some t) (.ok env)).1.cartCount = env.data.itemCount ∧
    (∀ s2 : Navbar.NavbarState, s2.cartCount = 0 → Navbar.cartBadge s2 = none) := by
  refine ⟨?_, ?_, ?_, ?_, ?_, ?_, ?_⟩
  · simp [Navbar.routeChangeFetches, truthy, ht]
  · simp [Navbar.routeChangeFetches, truthy, ht]
  · intro h
    simp [Navbar.routeChangeFetches, h]
  · simp [Navbar.fetchCartCount, truthy]
  · simp [Navbar.fetchCartCount, truthy, ht]
  · simp [Navbar.fetchCartCount, truthy, ht, hs, jsNumOr_some_zero]
  · intro s2 h
    simp [Navbar.cartBadge, h]

/-- Witness for C9: a concrete token and a successful fetch of `sampleCart`. -/
theorem C9_witness :
    Navbar.routeChangeFetches (some "tok") "/cart" = true ∧
    (Navbar.fetchCartCount ⟨0, false⟩ (some "tok")
      (.ok ⟨true, sampleCart, none⟩)).1.cartCount = sampleCart.itemCount := by
  have h := C9_navbar_count (some "tok") "tok" "/login" ⟨0, false⟩
    ⟨none, none, none⟩ ⟨true, sampleCart, none⟩ (by decide) rfl
  exact ⟨h.1, h.2.2.2.2.2.1⟩

